import Mathlib

/-!
Verification of the DGA diagnostic engine of the transformer-oil monitoring
dashboard (files `app.py` and `app1.py`).

The engine's numeric values are embedded as exact rationals (`ℚ`); a pandas
cell that is missing or failed numeric coercion (`NaN`) is embedded as
`none : Option ℚ`.  The free-text `ASROG` condition-notes field is embedded as
`Option (List Char)`; Python's substring test `m in s` is `containsSub` on
the character lists.  Persian result strings are represented by enumerations
whose constructor names follow the spec's English zone labels; the
correspondence with the literal strings of the source is noted at each
definition.
-/

/-- One sample record, after the ingestion layer's numeric coercion
(`load_and_parse` in `app.py`): every measurement column is float-or-NaN,
embedded as `Option ℚ`; identity fields parsed from `SampleName` are plain
text.  Field names follow the source's column names (`کد_پست` etc.
transliterated). -/
structure Record where
  TCG : Option ℚ
  TAN : Option ℚ
  BreakdownVoltage : Option ℚ
  WaterContents : Option ℚ
  DDF : Option ℚ
  hydrogen : Option ℚ
  Methane : Option ℚ
  Ethane : Option ℚ
  Ethylene : Option ℚ
  Acetylene : Option ℚ
  CarbonMonoxide : Option ℚ
  CarbonDioxide : Option ℚ
  propane : Option ℚ
  propylene : Option ℚ
  ASROG : Option (List Char)
  SampleName : List Char
  kod_post : List Char
  nam_tajhiz : List Char
  nam_post : List Char
  tarikh_shamsi : List Char
deriving DecidableEq

/-- A record with every measurement missing and empty text fields. -/
def emptyRecord : Record :=
  { TCG := none, TAN := none, BreakdownVoltage := none, WaterContents := none,
    DDF := none, hydrogen := none, Methane := none, Ethane := none,
    Ethylene := none, Acetylene := none, CarbonMonoxide := none,
    CarbonDioxide := none, propane := none, propylene := none, ASROG := none,
    SampleName := [], kod_post := [], nam_tajhiz := [], nam_post := [],
    tarikh_shamsi := [] }

/-- Python's substring test `needle in hay` on character lists: true iff
`needle` occurs contiguously inside `hay` (always true for the empty needle). -/
def containsSub (needle hay : List Char) : Bool :=
  match hay with
  | [] => needle.isEmpty
  | _ :: t => needle.isPrefixOf hay || containsSub needle t

/-- The "mode 5" marker substring `'حالت 5'` tested in `calculate_risk_score`. -/
def marker_halat5 : List Char := "حالت 5".toList

/-- The "thermal decomposition" marker substring `'تجزیه حرارتی'`. -/
def marker_tajzieh : List Char := "تجزیه حرارتی".toList

/-- The "partial discharge" marker substring `'تخلیه جزیی'`. -/
def marker_takhlieh : List Char := "تخلیه جزیی".toList

/-- TCG factor of `calculate_risk_score` (`app.py` lines 119-125):
`>3000 → 40`, elif `>2000 → 25`, elif `>1000 → 10`; NaN contributes 0. -/
def tcgScore (v : Option ℚ) : ℕ :=
  match v with
  | none => 0
  | some t => if t > 3000 then 40 else if t > 2000 then 25 else if t > 1000 then 10 else 0

/-- TAN factor (`app.py` lines 128-132): `>0.2 → 25`, elif `>0.1 → 15`. -/
def tanScore (v : Option ℚ) : ℕ :=
  match v with
  | none => 0
  | some t => if t > 0.2 then 25 else if t > 0.1 then 15 else 0

/-- Breakdown-voltage factor (`app.py` lines 135-139): `<40 → 25`, elif `<50 → 15`. -/
def bvScore (v : Option ℚ) : ℕ :=
  match v with
  | none => 0
  | some t => if t < 40 then 25 else if t < 50 then 15 else 0

/-- Water-content factor (`app.py` lines 142-146): `>40 → 20`, elif `>30 → 10`. -/
def wcScore (v : Option ℚ) : ℕ :=
  match v with
  | none => 0
  | some t => if t > 40 then 20 else if t > 30 then 10 else 0

/-- ASROG condition-notes factor (`app.py` lines 149-156): three independent
substring tests, `'حالت 5' → +30`, `'تجزیه حرارتی' → +20`,
`'تخلیه جزیی' → +10`; a NaN notes field contributes 0. -/
def asrogScore (v : Option (List Char)) : ℕ :=
  match v with
  | none => 0
  | some s =>
      (if containsSub marker_halat5 s then 30 else 0)
      + (if containsSub marker_tajzieh s then 20 else 0)
      + (if containsSub marker_takhlieh s then 10 else 0)

/-- The pre-clamp additive accumulation of `calculate_risk_score` (`app.py`
lines 116-156): the value of the local variable `score` just before
`return min(100, score)`.  Each factor is evaluated independently. -/
def riskScoreRaw (r : Record) : ℕ :=
  tcgScore r.TCG + tanScore r.TAN + bvScore r.BreakdownVoltage
    + wcScore r.WaterContents + asrogScore r.ASROG

/-- `calculate_risk_score` (`app.py` lines 114-158): additive score clamped
with `min(100, score)`. -/
def calculate_risk_score (r : Record) : ℕ :=
  min 100 (riskScoreRaw r)

/-- Pre-clamp accumulation of the variant scorer `risk_score` in `app1.py`
(lines 66-75): `TCG>2000 → +30`, `TAN>0.1 → +15`, `BV<50 → +20`,
`WC>30 → +15`, `'حالت 5' → +20`, `'تجزیه حرارتی' → +10`.  `app1.py` applies
`str(...)` to the notes without a NaN guard; `str(nan) = 'nan'` contains no
marker, so a missing notes field contributes 0 here as well. -/
def risk_score_raw (r : Record) : ℕ :=
  (match r.TCG with | none => 0 | some t => if t > 2000 then 30 else 0)
  + (match r.TAN with | none => 0 | some t => if t > 0.1 then 15 else 0)
  + (match r.BreakdownVoltage with | none => 0 | some t => if t < 50 then 20 else 0)
  + (match r.WaterContents with | none => 0 | some t => if t > 30 then 15 else 0)
  + (match r.ASROG with
     | none => 0
     | some s => (if containsSub marker_halat5 s then 20 else 0)
                 + (if containsSub marker_tajzieh s then 10 else 0))

/-- `risk_score` of `app1.py`: `min(100, score)`. -/
def risk_score (r : Record) : ℕ :=
  min 100 (risk_score_raw r)

/-- Three-level risk category.  `HIGH`/`MEDIUM`/`LOW` stand for the source's
strings `'پرریسک'`/`'متوسط'`/`'کم‌ریسک'`. -/
inductive RiskLevel where
  | HIGH
  | MEDIUM
  | LOW
deriving DecidableEq

/-- `get_risk_level` (`app.py` lines 169-176): `score ≥ 60 → HIGH`,
elif `score ≥ 35 → MEDIUM`, else `LOW`. -/
def get_risk_level (score : ℕ) : RiskLevel :=
  if score ≥ 60 then RiskLevel.HIGH
  else if score ≥ 35 then RiskLevel.MEDIUM
  else RiskLevel.LOW

/-- `calculate_duval_triangle` (`app.py` lines 179-211): requires the four
gases Methane, Ethane, Ethylene, Acetylene to be present and numeric
(`pd.isna` guard); returns `None` when any is missing or when
`total == 0`; otherwise the triple
`(CH4/total*100, C2H4/total*100, C2H2/total*100)` with
`total = CH4 + C2H6 + C2H4 + C2H2`. -/
def calculate_duval_triangle (r : Record) : Option (ℚ × ℚ × ℚ) :=
  match r.Methane, r.Ethane, r.Ethylene, r.Acetylene with
  | some ch4, some c2h6, some c2h4, some c2h2 =>
      let total := ch4 + c2h6 + c2h4 + c2h2
      if total = 0 then none
      else some (ch4 / total * 100, c2h4 / total * 100, c2h2 / total * 100)
  | _, _, _, _ => none

/-- Duval Triangle zones.  Constructor names follow the spec's labels; the
source returns the corresponding Persian strings: `PD` = `'تخلیه جزئی (PD)'`,
`PD_with_arcing` = `'تخلیه جزئی (PD) با قوس'`, `D1_corona` =
`'کرونا با تخلیه (D1)'`, `D2_high_energy` = `'تخلیه با انرژی بالا (D2)'`,
`D1_low_energy` = `'تخلیه با انرژی کم (D1)'`, `T1_low_temp` =
`'گرمایش کم دما (T1) <300°C'`, `T2_mid_temp` = `'گرمایش متوسط (T2) 300-700°C'`,
`T3_high_temp` = `'گرمایش زیاد دما (T3) >700°C'`, `DT_mixed` =
`'گرمایش و تخلیه ترکیبی (DT)'`, `INSUFFICIENT_DATA` = `'داده ناکافی'`. -/
inductive DuvalZone where
  | PD
  | PD_with_arcing
  | D1_corona
  | D2_high_energy
  | D1_low_energy
  | T1_low_temp
  | T2_mid_temp
  | T3_high_temp
  | DT_mixed
  | INSUFFICIENT_DATA
deriving DecidableEq

/-- `duval_zone_detection` (`app.py` lines 213-242): returns
`INSUFFICIENT_DATA` when any argument is `None`; otherwise the nested
threshold decision on `(CH4%, C2H4%, C2H2%)` exactly as in the source. -/
def duval_zone_detection (ch4 c2h4 c2h2 : Option ℚ) : DuvalZone :=
  match ch4, c2h4, c2h2 with
  | some mch4, some mc2h4, some mc2h2 =>
      if mc2h2 < 4 then
        if mc2h4 < 23 then
          if mch4 < 50 then DuvalZone.PD else DuvalZone.PD_with_arcing
        else
          if mc2h4 < 40 then DuvalZone.D1_corona else DuvalZone.D2_high_energy
      else
        if mc2h2 < 13 then DuvalZone.D1_low_energy
        else if mc2h2 < 29 then
          if mc2h4 < 13 then DuvalZone.T1_low_temp else DuvalZone.T2_mid_temp
        else
          if mc2h4 < 15 then DuvalZone.T3_high_temp else DuvalZone.DT_mixed
  | _, _, _ => DuvalZone.INSUFFICIENT_DATA

/-- The per-record Duval pipeline as run in the main loop of `app.py`
(lines 585-593): `CH4, C2H4, C2H2 = calculate_duval_triangle(row)` followed by
`zone = duval_zone_detection(CH4, C2H4, C2H2)`. -/
def duvalPipeline (r : Record) : Option (ℚ × ℚ × ℚ) × DuvalZone :=
  match calculate_duval_triangle r with
  | none => (none, duval_zone_detection none none none)
  | some (p1, p2, p3) =>
      (some (p1, p2, p3), duval_zone_detection (some p1) (some p2) (some p3))

/-- The 2-D triangular projection of `create_duval_triangle_plot` (`app.py`
lines 302-303), as a pure function of the percentage triple:
`x = (C2H4*0.5 + CH4*0 + C2H2*1) / 100 * 100` and
`y = (C2H4*0.866 + CH4*0 + C2H2*0) / 100 * 86.6`. -/
def duval_projection (ch4 c2h4 c2h2 : ℚ) : ℚ × ℚ :=
  ((c2h4 * 0.5 + ch4 * 0 + c2h2 * 1) / 100 * 100,
   (c2h4 * 0.866 + ch4 * 0 + c2h2 * 0) / 100 * 86.6)

/-- `safe_divide` (`app.py` lines 261-262): `a / b if b != 0 else 0`. -/
def safe_divide (a b : ℚ) : ℚ :=
  if b ≠ 0 then a / b else 0

/-- `calculate_ternary_ratios` (`app.py` lines 244-286): requires the five
gases hydrogen, Methane, Ethane, Ethylene, Acetylene; returns `None` when any
is missing.  Each raw ratio is additionally gated on its denominator being
positive (`if CH4 > 0 else 0` etc.).  If the ratio total is positive the
ratios are normalized to percentages, else the fixed fallback
`(33.33, 33.33, 33.33)` is returned. -/
def calculate_ternary_ratios (r : Record) : Option (ℚ × ℚ × ℚ) :=
  match r.hydrogen, r.Methane, r.Ethane, r.Ethylene, r.Acetylene with
  | some h2, some ch4, some c2h6, some c2h4, some c2h2 =>
      let ratio1 := if ch4 > 0 then safe_divide h2 ch4 else 0
      let ratio2 := if c2h6 > 0 then safe_divide c2h4 c2h6 else 0
      let ratio3 := if c2h4 > 0 then safe_divide c2h2 c2h4 else 0
      let total := ratio1 + ratio2 + ratio3
      if total > 0 then
        some (ratio1 / total * 100, ratio2 / total * 100, ratio3 / total * 100)
      else
        some (33.33, 33.33, 33.33)
  | _, _, _, _, _ => none

/-- Modelled from the spec's zone-lookup decision table (§4.3 step 3), written
independently of the source to be compared with `duval_zone_detection`. -/
def specDuvalZone (ch4 c2h4 c2h2 : ℚ) : DuvalZone :=
  if c2h2 < 4 then
    if c2h4 < 23 then
      if ch4 < 50 then DuvalZone.PD else DuvalZone.PD_with_arcing
    else
      if c2h4 < 40 then DuvalZone.D1_corona else DuvalZone.D2_high_energy
  else
    if c2h2 < 13 then DuvalZone.D1_low_energy
    else if c2h2 < 29 then
      if c2h4 < 13 then DuvalZone.T1_low_temp else DuvalZone.T2_mid_temp
    else
      if c2h4 < 15 then DuvalZone.T3_high_temp else DuvalZone.DT_mixed

/-- Modelled from the spec (§4.4 step 1): a guarded raw ratio, "safe division
returning 0 when the denominator is 0"; written from the spec's words to be
compared with the source's doubly-guarded ratios. -/
def specTernaryRatio (num den : ℚ) : ℚ :=
  if den = 0 then 0 else num / den

/-- Sample-data row 2 of `app.py` (lines 616-628), the spec's Scenario C:
CH4=1126, C2H6=525, C2H4=1669, C2H2=8 (H2=394). -/
def rScenarioC : Record :=
  { emptyRecord with
    hydrogen := some 394
    Methane := some 1126
    Ethane := some 525
    Ethylene := some 1669
    Acetylene := some 8 }

/-- A record whose four Duval gases are present with a nonzero total but with
one negative concentration. -/
def rNegGas : Record :=
  { emptyRecord with
    Methane := some 2
    Ethane := some 1
    Ethylene := some (-1)
    Acetylene := some 0 }

/-- A record whose condition notes consist of exactly the thermal
decomposition marker. -/
def rThermalOnly : Record :=
  { emptyRecord with ASROG := some marker_tajzieh }

/-- A record with all five DGA gases present and equal to zero. -/
def rZeroGases : Record :=
  { emptyRecord with
    hydrogen := some 0
    Methane := some 0
    Ethane := some 0
    Ethylene := some 0
    Acetylene := some 0 }

/-- Unfolding of `calculate_duval_triangle` on a record whose four gases are
present. -/
lemma calculate_duval_triangle_of_some (r : Record) (ch4 c2h6 c2h4 c2h2 : ℚ)
    (hm : r.Methane = some ch4) (he : r.Ethane = some c2h6)
    (hy : r.Ethylene = some c2h4) (ha : r.Acetylene = some c2h2) :
    calculate_duval_triangle r =
      if ch4 + c2h6 + c2h4 + c2h2 = 0 then none
      else some (ch4 / (ch4 + c2h6 + c2h4 + c2h2) * 100,
                 c2h4 / (ch4 + c2h6 + c2h4 + c2h2) * 100,
                 c2h2 / (ch4 + c2h6 + c2h4 + c2h2) * 100) := by
  unfold calculate_duval_triangle
  rw [hm, he, hy, ha]

/-- Unfolding of `calculate_ternary_ratios` on a record whose five gases are
present. -/
lemma calculate_ternary_ratios_of_some (r : Record) (h2 ch4 c2h6 c2h4 c2h2 : ℚ)
    (hh : r.hydrogen = some h2) (hm : r.Methane = some ch4)
    (he : r.Ethane = some c2h6) (hy : r.Ethylene = some c2h4)
    (ha : r.Acetylene = some c2h2) :
    calculate_ternary_ratios r =
      (let ratio1 := if ch4 > 0 then safe_divide h2 ch4 else 0
       let ratio2 := if c2h6 > 0 then safe_divide c2h4 c2h6 else 0
       let ratio3 := if c2h4 > 0 then safe_divide c2h2 c2h4 else 0
       let total := ratio1 + ratio2 + ratio3
       if total > 0 then
         some (ratio1 / total * 100, ratio2 / total * 100, ratio3 / total * 100)
       else
         some (33.33, 33.33, 33.33)) := by
  unfold calculate_ternary_ratios
  rw [hh, hm, he, hy, ha]

/-- A zero-or-constant conditional is monotone in Bool implication. -/
lemma score_ite_mono (k : ℕ) {b1 b2 : Bool} (h : b1 = true → b2 = true) :
    (if b1 then k else 0) ≤ (if b2 then k else 0) := by
  cases b1 <;> cases b2 <;> simp_all

/-- The TCG factor of the risk score is monotone. -/
lemma tcgScore_mono {a b : ℚ} (hab : a ≤ b) :
    tcgScore (some a) ≤ tcgScore (some b) := by
  simp only [tcgScore]
  split_ifs <;> first | (norm_num; done) | (exfalso; linarith)

/-- The TAN factor of the risk score is monotone. -/
lemma tanScore_mono {a b : ℚ} (hab : a ≤ b) :
    tanScore (some a) ≤ tanScore (some b) := by
  simp only [tanScore]
  split_ifs <;> first | (norm_num; done) | (exfalso; linarith)

/-- The breakdown-voltage factor is antitone: lower voltage scores higher. -/
lemma bvScore_anti {a b : ℚ} (hab : a ≤ b) :
    bvScore (some b) ≤ bvScore (some a) := by
  simp only [bvScore]
  split_ifs <;> first | (norm_num; done) | (exfalso; linarith)

/-- The water-content factor of the risk score is monotone. -/
lemma wcScore_mono {a b : ℚ} (hab : a ≤ b) :
    wcScore (some a) ≤ wcScore (some b) := by
  simp only [wcScore]
  split_ifs <;> first | (norm_num; done) | (exfalso; linarith)

/-- The condition-notes factor is monotone in marker presence. -/
lemma asrogScore_mono {n1 n2 : List Char}
    (h5 : containsSub marker_halat5 n1 = true → containsSub marker_halat5 n2 = true)
    (ht : containsSub marker_tajzieh n1 = true → containsSub marker_tajzieh n2 = true)
    (hp : containsSub marker_takhlieh n1 = true → containsSub marker_takhlieh n2 = true) :
    asrogScore (some n1) ≤ asrogScore (some n2) := by
  unfold asrogScore
  exact Nat.add_le_add (Nat.add_le_add (score_ite_mono 30 h5) (score_ite_mono 20 ht))
    (score_ite_mono 10 hp)

/-- C1 counterexample: for the record with Methane=2, Ethane=1, Ethylene=-1,
Acetylene=0 (all four gases present, total 2 ≠ 0) the Duval triple is
(100, -50, 0): its second component is outside [0,100] and the components sum
to 50, not 100 within 1e-6 — ethane is part of the denominator but not of the
reported triple, so the sum is 100·(CH4+C2H4+C2H2)/total, not 100. -/
theorem C1_counterexample :
    calculate_duval_triangle rNegGas = some (100, -50, 0) ∧
    ¬ (0 : ℚ) ≤ -50 ∧
    ¬ |(100 : ℚ) + -50 + 0 - 100| ≤ 1 / 1000000 := by
  refine ⟨?_, by norm_num, ?_⟩
  · rw [calculate_duval_triangle_of_some rNegGas 2 1 (-1) 0 rfl rfl rfl rfl]
    norm_num
  · rw [show (100 : ℚ) + -50 + 0 - 100 = -50 by ring, abs_of_nonpos (by norm_num)]
    norm_num

/-- C1 (amended): for every record in which the four Duval gases are present,
numeric and non-negative with nonzero sum, the returned triple is non-null,
each component lies in [0,100], and the components sum exactly to
100 − 100·C2H6/total (equal to 100 only when ethane is 0), because ethane is
included in the denominator but dropped from the reported triple. -/
theorem C1_amended (r : Record) (ch4 c2h6 c2h4 c2h2 : ℚ)
    (hm : r.Methane = some ch4) (he : r.Ethane = some c2h6)
    (hy : r.Ethylene = some c2h4) (ha : r.Acetylene = some c2h2)
    (h1 : 0 ≤ ch4) (h2 : 0 ≤ c2h6) (h3 : 0 ≤ c2h4) (h4 : 0 ≤ c2h2)
    (hsum : ch4 + c2h6 + c2h4 + c2h2 ≠ 0) :
    ∃ p1 p2 p3, calculate_duval_triangle r = some (p1, p2, p3) ∧
      0 ≤ p1 ∧ p1 ≤ 100 ∧ 0 ≤ p2 ∧ p2 ≤ 100 ∧ 0 ≤ p3 ∧ p3 ≤ 100 ∧
      p1 + p2 + p3 = 100 - 100 * c2h6 / (ch4 + c2h6 + c2h4 + c2h2) := by
  have htpos : 0 < ch4 + c2h6 + c2h4 + c2h2 :=
    lt_of_le_of_ne (by positivity) (Ne.symm hsum)
  refine ⟨ch4 / (ch4 + c2h6 + c2h4 + c2h2) * 100,
    c2h4 / (ch4 + c2h6 + c2h4 + c2h2) * 100,
    c2h2 / (ch4 + c2h6 + c2h4 + c2h2) * 100, ?_, ?_, ?_, ?_, ?_, ?_, ?_, ?_⟩
  · rw [calculate_duval_triangle_of_some r ch4 c2h6 c2h4 c2h2 hm he hy ha, if_neg hsum]
  · exact mul_nonneg (div_nonneg h1 htpos.le) (by norm_num)
  · rw [div_mul_eq_mul_div, div_le_iff₀ htpos]; linarith
  · exact mul_nonneg (div_nonneg h3 htpos.le) (by norm_num)
  · rw [div_mul_eq_mul_div, div_le_iff₀ htpos]; linarith
  · exact mul_nonneg (div_nonneg h4 htpos.le) (by norm_num)
  · rw [div_mul_eq_mul_div, div_le_iff₀ htpos]; linarith
  · field_simp
    ring

/-- C1 witness: `C1_amended` evaluated at the concrete Scenario-C record. -/
theorem C1_witness :
    ∃ p1 p2 p3, calculate_duval_triangle rScenarioC = some (p1, p2, p3) ∧
      0 ≤ p1 ∧ p1 ≤ 100 ∧ 0 ≤ p2 ∧ p2 ≤ 100 ∧ 0 ≤ p3 ∧ p3 ≤ 100 ∧
      p1 + p2 + p3 = 100 - 100 * 525 / (1126 + 525 + 1669 + 8) :=
  C1_amended rScenarioC 1126 525 1669 8 rfl rfl rfl rfl (by norm_num)
    (by norm_num) (by norm_num) (by norm_num) (by norm_num)

/-- C2 counterexample: on CH4=1126, C2H6=525, C2H4=1669, C2H2=8 the pipeline
assigns the D2 (high-energy discharge) zone, not "D1_corona" as claimed:
C2H4% ≈ 50.15 fails the `C2H4% < 40` test. -/
theorem C2_counterexample :
    (duvalPipeline rScenarioC).2 = DuvalZone.D2_high_energy ∧
    DuvalZone.D2_high_energy ≠ DuvalZone.D1_corona := by
  constructor
  · simp [duvalPipeline, calculate_duval_triangle, duval_zone_detection,
      rScenarioC, emptyRecord]
    norm_num
  · decide

/-- C2 (amended): for CH4=1126, C2H6=525, C2H4=1669, C2H2=8 the pipeline
yields percentages CH4% = 14075/416 ≈ 33.83, C2H4% = 41725/832 ≈ 50.15,
C2H2% = 25/104 ≈ 0.24 (each within 0.01 of the spec's rounded values) and
assigns the zone D2_high_energy (the source's `'تخلیه با انرژی بالا (D2)'`),
since C2H2% < 4 and C2H4% ≥ 40. -/
theorem C2_amended :
    duvalPipeline rScenarioC =
      (some (14075 / 416, 41725 / 832, 25 / 104), DuvalZone.D2_high_energy) ∧
    |14075 / 416 - (33.84 : ℚ)| ≤ 1 / 100 ∧
    |41725 / 832 - (50.15 : ℚ)| ≤ 1 / 100 ∧
    |25 / 104 - (0.24 : ℚ)| ≤ 1 / 100 := by
  refine ⟨?_, ?_, ?_, ?_⟩
  · simp [duvalPipeline, calculate_duval_triangle, duval_zone_detection,
      rScenarioC, emptyRecord]
    norm_num
  · rw [abs_le]; constructor <;> norm_num
  · rw [abs_le]; constructor <;> norm_num
  · rw [abs_le]; constructor <;> norm_num

/-- C3 counterexample: a record whose notes are exactly the thermal
decomposition marker scores 20 pre-clamp points in `calculate_risk_score`
(`app.py`), against 0 for empty notes: the marker contributes 20, not 10. -/
theorem C3_counterexample :
    riskScoreRaw rThermalOnly = 20 ∧ riskScoreRaw emptyRecord = 0 ∧
    riskScoreRaw rThermalOnly ≠ riskScoreRaw emptyRecord + 10 := by
  refine ⟨by decide, by decide, by decide⟩

/-- C3 (amended): in `app.py`'s scorer the thermal-decomposition marker
contributes exactly 20 points to the pre-clamp additive score, independently
of all other factors and markers; in the `app1.py` variant scorer
(`risk_score`) it contributes exactly 10. -/
theorem C3_amended (r1 r2 : Record) (n1 n2 : List Char)
    (htcg : r1.TCG = r2.TCG) (htan : r1.TAN = r2.TAN)
    (hbv : r1.BreakdownVoltage = r2.BreakdownVoltage)
    (hwc : r1.WaterContents = r2.WaterContents)
    (ha1 : r1.ASROG = some n1) (ha2 : r2.ASROG = some n2)
    (h5 : containsSub marker_halat5 n1 = containsSub marker_halat5 n2)
    (hpd : containsSub marker_takhlieh n1 = containsSub marker_takhlieh n2)
    (hth1 : containsSub marker_tajzieh n1 = false)
    (hth2 : containsSub marker_tajzieh n2 = true) :
    riskScoreRaw r2 = riskScoreRaw r1 + 20 ∧
    risk_score_raw r2 = risk_score_raw r1 + 10 := by
  constructor
  · unfold riskScoreRaw
    rw [htcg, htan, hbv, hwc, ha1, ha2]
    simp only [asrogScore]
    rw [h5, hpd, hth1, hth2]
    simp
    omega
  · simp only [risk_score_raw]
    rw [htcg, htan, hbv, hwc, ha1, ha2]
    simp only []
    rw [h5, hth1, hth2]
    simp
    omega

/-- C3 witness: `C3_amended` at two concrete records with empty notes versus
notes equal to the thermal marker. -/
theorem C3_witness :
    riskScoreRaw rThermalOnly = riskScoreRaw { emptyRecord with ASROG := some [] } + 20 ∧
    risk_score_raw rThermalOnly = risk_score_raw { emptyRecord with ASROG := some [] } + 10 :=
  C3_amended { emptyRecord with ASROG := some [] } rThermalOnly [] marker_tajzieh
    rfl rfl rfl rfl rfl rfl (by decide) (by decide) (by decide) (by decide)

/-- C4 counterexample: at the percentage triple (CH4%, C2H4%, C2H2%) =
(0, 100, 0) the source's projection yields y = 100·0.866/100·86.6 =
187489/2500 = 74.9956, not 0.866·C2H4% = 86.6 as claimed: the code divides by
100 and rescales by the triangle height 86.6 after multiplying by 0.866. -/
theorem C4_counterexample :
    duval_projection 0 100 0 = (50, 187489 / 2500) ∧
    (187489 / 2500 : ℚ) ≠ 0.866 * 100 := by
  constructor
  · unfold duval_projection
    simp only [Prod.mk.injEq]
    constructor <;> norm_num
  · norm_num

/-- C4 (amended): for every percentage triple the projection computes exactly
x = 0.5·C2H4 + 1·C2H2 and y = 0.866·86.6/100·C2H4 (the claimed x, but y is
additionally divided by 100 and scaled by 86.6). -/
theorem C4_amended (ch4 c2h4 c2h2 : ℚ) :
    duval_projection ch4 c2h4 c2h2 =
      (0.5 * c2h4 + 1 * c2h2, 0.866 * 86.6 / 100 * c2h4) := by
  unfold duval_projection
  simp only [Prod.mk.injEq]
  constructor <;> ring

/-- C5: for every non-null percentage triple, the source's zone lookup agrees
with the spec's nested first-match decision table (`specDuvalZone`), branch
for branch. -/
theorem C5_zone_lookup (ch4 c2h4 c2h2 : ℚ) :
    duval_zone_detection (some ch4) (some c2h4) (some c2h2) =
      specDuvalZone ch4 c2h4 c2h2 := rfl

/-- A spec-side guarded ratio is non-negative for non-negative inputs. -/
lemma specTernaryRatio_nonneg {num den : ℚ} (hn : 0 ≤ num) (hd : 0 ≤ den) :
    0 ≤ specTernaryRatio num den := by
  unfold specTernaryRatio
  split_ifs
  · norm_num
  · exact div_nonneg hn hd

/-- For a non-negative denominator the source's doubly-guarded ratio
(`if den > 0 then safe_divide num den else 0`) coincides with the spec's
guarded ratio (`0` exactly when the denominator is `0`). -/
lemma guarded_ratio_eq {num den : ℚ} (hd : 0 ≤ den) :
    (if den > 0 then safe_divide num den else 0) = specTernaryRatio num den := by
  unfold safe_divide specTernaryRatio
  rcases eq_or_lt_of_le hd with hz | hp
  · rw [← hz]
    norm_num
  · simp [hp, hp.ne']

/-- C6: for every record with all five gases present, numeric and
non-negative, the ternary classifier never returns null: when the sum of the
three guarded raw ratios is 0 it returns exactly the fallback
(33.33, 33.33, 33.33), and otherwise the normalized percentages summing to
exactly 100. -/
theorem C6_ternary (r : Record) (h2 ch4 c2h6 c2h4 c2h2 : ℚ)
    (hh : r.hydrogen = some h2) (hm : r.Methane = some ch4)
    (he : r.Ethane = some c2h6) (hy : r.Ethylene = some c2h4)
    (ha : r.Acetylene = some c2h2)
    (g1 : 0 ≤ h2) (g2 : 0 ≤ ch4) (g3 : 0 ≤ c2h6) (g4 : 0 ≤ c2h4)
    (g5 : 0 ≤ c2h2) :
    calculate_ternary_ratios r ≠ none ∧
    (specTernaryRatio h2 ch4 + specTernaryRatio c2h4 c2h6
        + specTernaryRatio c2h2 c2h4 = 0 →
      calculate_ternary_ratios r = some (33.33, 33.33, 33.33)) ∧
    (specTernaryRatio h2 ch4 + specTernaryRatio c2h4 c2h6
        + specTernaryRatio c2h2 c2h4 ≠ 0 →
      ∃ p1 p2 p3, calculate_ternary_ratios r = some (p1, p2, p3) ∧
        p1 + p2 + p3 = 100) := by
  set q1 := specTernaryRatio h2 ch4 with hq1
  set q2 := specTernaryRatio c2h4 c2h6 with hq2
  set q3 := specTernaryRatio c2h2 c2h4 with hq3
  have key : calculate_ternary_ratios r =
      (if q1 + q2 + q3 > 0 then
        some (q1 / (q1 + q2 + q3) * 100, q2 / (q1 + q2 + q3) * 100,
              q3 / (q1 + q2 + q3) * 100)
       else some (33.33, 33.33, 33.33)) := by
    rw [calculate_ternary_ratios_of_some r h2 ch4 c2h6 c2h4 c2h2 hh hm he hy ha]
    simp only [guarded_ratio_eq g2, guarded_ratio_eq g3, guarded_ratio_eq g4,
      ← hq1, ← hq2, ← hq3]
  have hq1n : 0 ≤ q1 := specTernaryRatio_nonneg g1 g2
  have hq2n : 0 ≤ q2 := specTernaryRatio_nonneg g4 g3
  have hq3n : 0 ≤ q3 := specTernaryRatio_nonneg g5 g4
  refine ⟨?_, ?_, ?_⟩
  · rw [key]
    split_ifs <;> simp
  · intro h0
    rw [key, h0]
    norm_num
  · intro hne
    have hpos : 0 < q1 + q2 + q3 :=
      lt_of_le_of_ne (by positivity) (Ne.symm hne)
    refine ⟨q1 / (q1 + q2 + q3) * 100, q2 / (q1 + q2 + q3) * 100,
      q3 / (q1 + q2 + q3) * 100, by rw [key, if_pos hpos], ?_⟩
    field_simp
    ring

/-- C6 witness: `C6_ternary` at the all-zero gas record, where every guarded
ratio is 0 and the fallback triple is returned. -/
theorem C6_witness :
    calculate_ternary_ratios rZeroGases ≠ none ∧
    (specTernaryRatio 0 0 + specTernaryRatio 0 0 + specTernaryRatio 0 0 = 0 →
      calculate_ternary_ratios rZeroGases = some (33.33, 33.33, 33.33)) ∧
    (specTernaryRatio 0 0 + specTernaryRatio 0 0 + specTernaryRatio 0 0 ≠ 0 →
      ∃ p1 p2 p3, calculate_ternary_ratios rZeroGases = some (p1, p2, p3) ∧
        p1 + p2 + p3 = 100) :=
  C6_ternary rZeroGases 0 0 0 0 0 rfl rfl rfl rfl rfl le_rfl le_rfl le_rfl
    le_rfl le_rfl

/-- C7: for every record the risk score is a natural number at most 100 (the
additive accumulation is over ℕ, hence never negative, and the result is
clamped by `min(100, score)`), and the category mapping gives HIGH iff
score ≥ 60, MEDIUM iff 35 ≤ score < 60, and LOW iff score < 35. -/
theorem C7_risk_bounds : ∀ r : Record,
    calculate_risk_score r ≤ 100 ∧
    (get_risk_level (calculate_risk_score r) = RiskLevel.HIGH ↔
      60 ≤ calculate_risk_score r) ∧
    (get_risk_level (calculate_risk_score r) = RiskLevel.MEDIUM ↔
      35 ≤ calculate_risk_score r ∧ calculate_risk_score r < 60) ∧
    (get_risk_level (calculate_risk_score r) = RiskLevel.LOW ↔
      calculate_risk_score r < 35) := by
  intro r
  refine ⟨min_le_left _ _, ?_, ?_, ?_⟩ <;>
  · generalize calculate_risk_score r = n
    unfold get_risk_level
    split_ifs <;> simp_all <;> omega

/-- C8: a record with any of the four Duval gases missing or non-numeric, and
likewise a record with all four present but summing to 0, yields the null
triple and the INSUFFICIENT_DATA zone from the pipeline — no default zone (the
embedded functions are total, so no exception either). -/
theorem C8_insufficient :
    (∀ r : Record,
      (r.Methane = none ∨ r.Ethane = none ∨ r.Ethylene = none ∨
        r.Acetylene = none) →
      calculate_duval_triangle r = none ∧
      duvalPipeline r = (none, DuvalZone.INSUFFICIENT_DATA)) ∧
    (∀ (r : Record) (ch4 c2h6 c2h4 c2h2 : ℚ),
      r.Methane = some ch4 → r.Ethane = some c2h6 → r.Ethylene = some c2h4 →
      r.Acetylene = some c2h2 → ch4 + c2h6 + c2h4 + c2h2 = 0 →
      calculate_duval_triangle r = none ∧
      duvalPipeline r = (none, DuvalZone.INSUFFICIENT_DATA)) := by
  have hpipe : ∀ r : Record, calculate_duval_triangle r = none →
      duvalPipeline r = (none, DuvalZone.INSUFFICIENT_DATA) := by
    intro r h
    unfold duvalPipeline
    rw [h]
    rfl
  constructor
  · intro r h
    have hda : calculate_duval_triangle r = none := by
      unfold calculate_duval_triangle
      rcases h with h | h | h | h <;> rw [h] <;>
        cases r.Methane <;> cases r.Ethane <;> cases r.Ethylene <;> rfl
    exact ⟨hda, hpipe r hda⟩
  · intro r ch4 c2h6 c2h4 c2h2 hm he hy ha h0
    have hda : calculate_duval_triangle r = none := by
      rw [calculate_duval_triangle_of_some r ch4 c2h6 c2h4 c2h2 hm he hy ha,
        if_pos h0]
    exact ⟨hda, hpipe r hda⟩

/-- C8 witness: `C8_insufficient` applied to the all-missing record and to the
record whose four gases are present and all 0. -/
theorem C8_witness :
    (calculate_duval_triangle emptyRecord = none ∧
      duvalPipeline emptyRecord = (none, DuvalZone.INSUFFICIENT_DATA)) ∧
    (calculate_duval_triangle rZeroGases = none ∧
      duvalPipeline rZeroGases = (none, DuvalZone.INSUFFICIENT_DATA)) :=
  ⟨C8_insufficient.1 emptyRecord (Or.inl rfl),
   C8_insufficient.2 rZeroGases 0 0 0 0 rfl rfl rfl rfl (by norm_num)⟩

/-- C9: the risk score is monotonically non-decreasing in each individual
contributing severity factor: raising TCG, TAN or water content, lowering
breakdown voltage, or adding recognized marker substrings to the condition
notes (while all other factors stay fixed) never lowers the score. -/
theorem C9_monotone :
    (∀ (r1 r2 : Record) (a b : ℚ),
      r1.TAN = r2.TAN → r1.BreakdownVoltage = r2.BreakdownVoltage →
      r1.WaterContents = r2.WaterContents → r1.ASROG = r2.ASROG →
      r1.TCG = some a → r2.TCG = some b → a ≤ b →
      calculate_risk_score r1 ≤ calculate_risk_score r2) ∧
    (∀ (r1 r2 : Record) (a b : ℚ),
      r1.TCG = r2.TCG → r1.BreakdownVoltage = r2.BreakdownVoltage →
      r1.WaterContents = r2.WaterContents → r1.ASROG = r2.ASROG →
      r1.TAN = some a → r2.TAN = some b → a ≤ b →
      calculate_risk_score r1 ≤ calculate_risk_score r2) ∧
    (∀ (r1 r2 : Record) (a b : ℚ),
      r1.TCG = r2.TCG → r1.TAN = r2.TAN →
      r1.WaterContents = r2.WaterContents → r1.ASROG = r2.ASROG →
      r1.BreakdownVoltage = some b → r2.BreakdownVoltage = some a → a ≤ b →
      calculate_risk_score r1 ≤ calculate_risk_score r2) ∧
    (∀ (r1 r2 : Record) (a b : ℚ),
      r1.TCG = r2.TCG → r1.TAN = r2.TAN →
      r1.BreakdownVoltage = r2.BreakdownVoltage → r1.ASROG = r2.ASROG →
      r1.WaterContents = some a → r2.WaterContents = some b → a ≤ b →
      calculate_risk_score r1 ≤ calculate_risk_score r2) ∧
    (∀ (r1 r2 : Record) (n1 n2 : List Char),
      r1.TCG = r2.TCG → r1.TAN = r2.TAN →
      r1.BreakdownVoltage = r2.BreakdownVoltage →
      r1.WaterContents = r2.WaterContents →
      r1.ASROG = some n1 → r2.ASROG = some n2 →
      (containsSub marker_halat5 n1 = true → containsSub marker_halat5 n2 = true) →
      (containsSub marker_tajzieh n1 = true → containsSub marker_tajzieh n2 = true) →
      (containsSub marker_takhlieh n1 = true → containsSub marker_takhlieh n2 = true) →
      calculate_risk_score r1 ≤ calculate_risk_score r2) := by
  refine ⟨?_, ?_, ?_, ?_, ?_⟩
  · intro r1 r2 a b e1 e2 e3 e4 f1 f2 hab
    unfold calculate_risk_score riskScoreRaw
    rw [e1, e2, e3, e4, f1, f2]
    exact min_le_min le_rfl (Nat.add_le_add (Nat.add_le_add (Nat.add_le_add
      (Nat.add_le_add (tcgScore_mono hab) le_rfl) le_rfl) le_rfl) le_rfl)
  · intro r1 r2 a b e1 e2 e3 e4 f1 f2 hab
    unfold calculate_risk_score riskScoreRaw
    rw [e1, e2, e3, e4, f1, f2]
    exact min_le_min le_rfl (Nat.add_le_add (Nat.add_le_add (Nat.add_le_add
      (Nat.add_le_add le_rfl (tanScore_mono hab)) le_rfl) le_rfl) le_rfl)
  · intro r1 r2 a b e1 e2 e3 e4 f1 f2 hab
    unfold calculate_risk_score riskScoreRaw
    rw [e1, e2, e3, e4, f1, f2]
    exact min_le_min le_rfl (Nat.add_le_add (Nat.add_le_add (Nat.add_le_add
      le_rfl (bvScore_anti hab)) le_rfl) le_rfl)
  · intro r1 r2 a b e1 e2 e3 e4 f1 f2 hab
    unfold calculate_risk_score riskScoreRaw
    rw [e1, e2, e3, e4, f1, f2]
    exact min_le_min le_rfl (Nat.add_le_add (Nat.add_le_add le_rfl
      (wcScore_mono hab)) le_rfl)
  · intro r1 r2 n1 n2 e1 e2 e3 e4 f1 f2 i5 it ip
    unfold calculate_risk_score riskScoreRaw
    rw [e1, e2, e3, e4, f1, f2]
    exact min_le_min le_rfl (Nat.add_le_add le_rfl (asrogScore_mono i5 it ip))

/-- C9 witness: the TCG conjunct of `C9_monotone` at two concrete records with
TCG 500 and 2500. -/
theorem C9_witness :
    calculate_risk_score { emptyRecord with TCG := some 500 } ≤
      calculate_risk_score { emptyRecord with TCG := some 2500 } :=
  C9_monotone.1 { emptyRecord with TCG := some 500 }
    { emptyRecord with TCG := some 2500 } 500 2500 rfl rfl rfl rfl rfl rfl
    (by norm_num)

/-- C10: the risk score depends only on TCG, TAN, BreakdownVoltage,
WaterContents and the ASROG condition notes: two records agreeing on those
five fields get the same score whatever their gas concentrations and identity
fields. -/
theorem C10_score_noninterference (r1 r2 : Record)
    (h1 : r1.TCG = r2.TCG) (h2 : r1.TAN = r2.TAN)
    (h3 : r1.BreakdownVoltage = r2.BreakdownVoltage)
    (h4 : r1.WaterContents = r2.WaterContents) (h5 : r1.ASROG = r2.ASROG) :
    calculate_risk_score r1 = calculate_risk_score r2 := by
  unfold calculate_risk_score riskScoreRaw
  rw [h1, h2, h3, h4, h5]

/-- C10 witness: `C10_score_noninterference` at two records differing only in
the hydrogen concentration. -/
theorem C10_witness :
    calculate_risk_score { emptyRecord with hydrogen := some 5 } =
      calculate_risk_score { emptyRecord with hydrogen := some 7 } :=
  C10_score_noninterference { emptyRecord with hydrogen := some 5 }
    { emptyRecord with hydrogen := some 7 } rfl rfl rfl rfl rfl
